import Mathlib

/-!
Verification of the `ecw` CMake wrapper.

A shallow embedding of the two source files of the `ecw` repository
(`ecw.py`, the current implementation, and `main.py`, the older duplicate)
together with proofs of the spec's claims about them.

Modelling conventions:

* Resolved absolute filesystem paths are modelled as lists of path
  components (`typer` resolves `source_dir` and `build_dir` with
  `resolve_path=True`, so both are absolute and normalised; two resolved
  paths are equal exactly when their component lists are equal).
  `pathStr` renders such a path the way Python's `str(Path(...))` does.
* Python's `build_dir in source_dir.parents` tests whether `build_dir`
  is a *proper* ancestor of `source_dir`; on component lists this is
  `pathInParents`.
* The observable effects of the `config` command (error echo on stderr,
  recursive directory removal, spawning the child process) are modelled
  as an ordered trace of `Event`s; the exit-code behaviour of `call`
  is modelled separately as a function from the child's exit status to
  the invocation's process-level exit code.
* The filesystem state is abstracted by a predicate `isDir` standing in
  for `os.path.isdir`.
-/

/-- `str(Path(...))` for a resolved absolute path given by its components:
`[] ↦ "/"`, `["repo", "build"] ↦ "/repo/build"`. -/
def pathStr (p : List String) : String :=
  "/" ++ String.intercalate "/" p

/-- Python's `build_dir in source_dir.parents` (ecw.py line 150): the
`parents` of a resolved path are exactly its proper ancestors, i.e. the
proper prefixes of its component list. -/
def pathInParents (buildDir sourceDir : List String) : Bool :=
  buildDir.isPrefixOf sourceDir && decide (buildDir.length < sourceDir.length)

/-- `BuildMode` (ecw.py lines 39–47): the four CMake build modes. -/
inductive BuildMode where
  | debug
  | release
  | release_with_debug
  | min_size_release
deriving DecidableEq

/-- The short CLI value string backing each enum member
(ecw.py lines 44–47); in Python the enum is `str`-backed, so a member's
truthiness is the truthiness of this string. -/
def BuildMode.value : BuildMode → String
  | .debug => "d"
  | .release => "r"
  | .release_with_debug => "w"
  | .min_size_release => "s"

/-- `BuildMode.to_param` (ecw.py lines 49–61): the if/elif chain returning
the `CMAKE_BUILD_TYPE` value, with `"Debug"` as the fall-through. -/
def BuildMode.to_param : BuildMode → String
  | .release => "Release"
  | .release_with_debug => "RelWithDebInfo"
  | .min_size_release => "MinSizeRel"
  | .debug => "Debug"

/-- An observable effect of one invocation: an error echoed to stderr, a
recursive directory removal (`shutil.rmtree`), or a child process spawned
(`subprocess.call`, with the `quiet` argument that `call` received). -/
inductive Event where
  | echoErr : String → Event
  | rmtree : List String → Event
  | spawn : List String → Bool → Event
deriving DecidableEq

/-- How `call` (ecw.py lines 64–74) wires the child's streams: which of
the child's stdout/stderr are redirected to `os.devnull`. -/
structure CallStreams where
  stdoutToDevNull : Bool
  stderrToDevNull : Bool
deriving DecidableEq

namespace Ecw

/-- Stream wiring of `call` in ecw.py (lines 71–74): with `quiet`,
`subprocess.call(command, stdout=open(os.devnull, "wb"))`, stderr
untouched; without `quiet`, `subprocess.call(command)`, nothing
redirected. -/
def callStreams (quiet : Bool) : CallStreams :=
  { stdoutToDevNull := quiet, stderrToDevNull := false }

/-- Process-level exit code of an invocation whose `call` (ecw.py lines
64–77) ran a child that returned `result`: `if result != 0: raise
typer.Exit(result)` makes the process exit with `result`; otherwise the
command returns normally and the process exits 0. -/
def callExitCode (result : Int) : Int :=
  if result ≠ 0 then result else 0

/-- Default of the `--mode` option of `config` (ecw.py lines 117–122):
`typer.Option(BuildMode.debug, ...)` — the default is `debug`, not
absent. -/
def defaultMode : Option BuildMode :=
  some BuildMode.debug

/-- Command assembly of `config` (ecw.py lines 157–163), mirroring the
Python statement by statement.  `cmake_params = None` is modelled as the
empty list (both are falsy).  `if mode:` is Python truthiness: false for
`None`, and for a member the truthiness of its backing string. -/
def configCommand (cmakeParams : List String) (sourceDir buildDir : List String)
    (mode : Option BuildMode) (exportCC : Bool) : List String :=
  let command := ["cmake", "-S", pathStr sourceDir, "-B", pathStr buildDir]
  let command :=
    match mode with
    | some m => if m.value ≠ "" then command ++ ["-DCMAKE_BUILD_TYPE=" ++ m.to_param] else command
    | none => command
  let command := if exportCC then command ++ ["-DCMAKE_EXPORT_COMPILE_COMMANDS=1"] else command
  if cmakeParams.isEmpty then command else command ++ cmakeParams

/-- The unsafe-reset error message (ecw.py lines 151–153), echoed with
`err=True`. -/
def unsafeResetError : String :=
  "Error: Build root contains source root; cannot remove."

/-- Effect trace of `config` (ecw.py lines 141–165).  With `reset`, first
the ancestry guard: if `build_dir in source_dir.parents` the error is
echoed to stderr and the function returns (nothing removed, nothing
spawned); `elif os.path.isdir(build_dir)` the build directory is removed
recursively.  Then the command is assembled and `call(command, quiet)`
spawns the child. -/
def config (cmakeParams : List String) (sourceDir buildDir : List String)
    (mode : Option BuildMode) (exportCC quiet reset : Bool)
    (isDir : List String → Bool) : List Event :=
  if reset then
    if pathInParents buildDir sourceDir then
      [Event.echoErr unsafeResetError]
    else if isDir buildDir then
      [Event.rmtree buildDir,
       Event.spawn (configCommand cmakeParams sourceDir buildDir mode exportCC) quiet]
    else
      [Event.spawn (configCommand cmakeParams sourceDir buildDir mode exportCC) quiet]
  else
    [Event.spawn (configCommand cmakeParams sourceDir buildDir mode exportCC) quiet]

/-- Process-level exit code of the `config` command (ecw.py lines
141–165): on the unsafe-reset early return the function returns normally,
so the process exits 0; on every other path the exit code is that of
`call` run on the child's result. -/
def configExitCode (sourceDir buildDir : List String) (reset : Bool)
    (childResult : Int) : Int :=
  if reset && pathInParents buildDir sourceDir then 0
  else callExitCode childResult

/-- Command assembly of `build` (ecw.py lines 187–189): the target token
pair is appended only when `target != "all"`. -/
def buildCommand (target : String) (buildDir : List String) : List String :=
  let command := ["cmake", "--build", pathStr buildDir]
  if target ≠ "all" then command ++ ["-t", target] else command

/-- Effect trace of `build` (ecw.py lines 187–191): it assembles the
command and invokes `call(command)` — `quiet` defaults to `False`; the
`build` command has no quiet option. -/
def build (target : String) (buildDir : List String) : List Event :=
  [Event.spawn (buildCommand target buildDir) false]

end Ecw

namespace Main

/-- Process-level exit code for `call` in main.py (lines 38–40): the
result of `subprocess.call(command)` is discarded, so the invocation
always exits 0 regardless of the child's status. -/
def callExitCode (result : Int) : Int :=
  0

/-- Command assembly of `build` in main.py (lines 101–103), identical in
shape to ecw.py's. -/
def buildCommand (target : String) (buildDir : List String) : List String :=
  let command := ["cmake", "--build", pathStr buildDir]
  if target ≠ "all" then command ++ ["-t", target] else command

end Main

/-- A token is a build-type token when it starts with
`-DCMAKE_BUILD_TYPE=` (compared on the underlying character lists). -/
def buildTypeToken (t : String) : Bool :=
  "-DCMAKE_BUILD_TYPE=".data.isPrefixOf t.data

/-! Helper lemmas shared by the claim theorems. -/

theorem BuildMode.value_ne_empty (m : BuildMode) : m.value ≠ "" := by
  cases m <;> decide

theorem pathInParents_self (p : List String) : pathInParents p p = false := by
  simp [pathInParents]

/-- Normal form of ecw.py's configure command: base verb and paths, then
the optional build-type token, then the optional export token, then the
passthrough parameters. -/
theorem configCommand_eq (params src bld : List String) (mode : Option BuildMode)
    (exp : Bool) :
    Ecw.configCommand params src bld mode exp =
      ["cmake", "-S", pathStr src, "-B", pathStr bld]
        ++ (match mode with
            | some m => ["-DCMAKE_BUILD_TYPE=" ++ m.to_param]
            | none => [])
        ++ (if exp then ["-DCMAKE_EXPORT_COMPILE_COMMANDS=1"] else [])
        ++ params := by
  unfold Ecw.configCommand
  cases mode with
  | none => cases exp <;> cases params <;> simp
  | some m =>
      have hv := BuildMode.value_ne_empty m
      cases exp <;> cases params <;> simp [hv]

theorem buildTypeToken_pathStr (p : List String) : buildTypeToken (pathStr p) = false :=
  rfl

theorem buildTypeToken_mode (s : String) :
    buildTypeToken ("-DCMAKE_BUILD_TYPE=" ++ s) = true := by
  simp [buildTypeToken]

theorem buildTypeToken_cmake : buildTypeToken "cmake" = false :=
  rfl

theorem buildTypeToken_sourceFlag : buildTypeToken "-S" = false :=
  rfl

theorem buildTypeToken_buildFlag : buildTypeToken "-B" = false :=
  rfl

theorem buildTypeToken_exportFlag :
    buildTypeToken "-DCMAKE_EXPORT_COMPILE_COMMANDS=1" = false :=
  rfl

/-- The build-type tokens of a configure command whose passthrough
parameters contain none: exactly the token synthesized from `mode`. -/
theorem filter_buildTypeToken_configCommand (params src bld : List String)
    (mode : Option BuildMode) (exp : Bool)
    (hp : params.countP buildTypeToken = 0) :
    (Ecw.configCommand params src bld mode exp).filter buildTypeToken
      = (match mode with
         | some m => ["-DCMAKE_BUILD_TYPE=" ++ m.to_param]
         | none => []) := by
  have hp' : params.filter buildTypeToken = [] :=
    List.filter_eq_nil_iff.mpr (List.countP_eq_zero.mp hp)
  rw [configCommand_eq]
  cases mode <;> cases exp <;>
    simp [List.filter_append, List.filter, buildTypeToken_pathStr, buildTypeToken_mode,
      buildTypeToken_cmake, buildTypeToken_sourceFlag, buildTypeToken_buildFlag,
      buildTypeToken_exportFlag, hp']

/-! Claim theorems. -/

/-- C1: for every source/build pair where the build path is a proper
ancestor of the source path, `config` with the reset flag set produces
exactly one effect — the unsafe-reset error echoed to the error stream —
so nothing is deleted and no child process is spawned. -/
theorem config_unsafe_reset_aborts (params src bld : List String)
    (mode : Option BuildMode) (exp quiet : Bool) (isDir : List String → Bool)
    (h : pathInParents bld src = true) :
    Ecw.config params src bld mode exp quiet true isDir
      = [Event.echoErr Ecw.unsafeResetError] := by
  simp [Ecw.config, h]

/-- Witness for C1 at `src = /repo/src`, `bld = /repo`. -/
theorem config_unsafe_reset_aborts_witness :
    pathInParents ["repo"] ["repo", "src"] = true
    ∧ Ecw.config [] ["repo", "src"] ["repo"] none false false true (fun _ => true)
        = [Event.echoErr Ecw.unsafeResetError] :=
  ⟨by decide,
   config_unsafe_reset_aborts [] ["repo", "src"] ["repo"] none false false
     (fun _ => true) (by decide)⟩

/-- C2 counterexample: with no `--mode` supplied the default is
`BuildMode.debug` (ecw.py line 118), so the assembled command *does*
contain a build-type token, namely `-DCMAKE_BUILD_TYPE=Debug`. -/
theorem config_default_mode_cx :
    (Ecw.configCommand [] ["repo"] ["repo", "build"] Ecw.defaultMode false).filter
        buildTypeToken
      = ["-DCMAKE_BUILD_TYPE=Debug"] := by
  decide

/-- C2 amended: for every configure invocation in which no build mode is
supplied, the default mode `debug` applies, and the assembled command
contains exactly one build-type token, `-DCMAKE_BUILD_TYPE=Debug`
(provided the passthrough parameters contain no build-type token of
their own). -/
theorem config_default_mode_token (params src bld : List String) (exp : Bool)
    (hp : params.countP buildTypeToken = 0) :
    (Ecw.configCommand params src bld Ecw.defaultMode exp).filter buildTypeToken
      = ["-DCMAKE_BUILD_TYPE=Debug"] := by
  have h := filter_buildTypeToken_configCommand params src bld Ecw.defaultMode exp hp
  simpa [Ecw.defaultMode, BuildMode.to_param] using h

/-- Witness for C2 (amended) with empty passthrough parameters. -/
theorem config_default_mode_token_witness :
    ([] : List String).countP buildTypeToken = 0
    ∧ (Ecw.configCommand [] ["repo"] ["repo", "build"] Ecw.defaultMode true).filter
          buildTypeToken
        = ["-DCMAKE_BUILD_TYPE=Debug"] :=
  ⟨by decide, config_default_mode_token [] ["repo"] ["repo", "build"] true (by decide)⟩

/-- C3 counterexample: in main.py the result of `subprocess.call` is
discarded, so a child exiting with status 2 does *not* make the
invocation exit with 2 (it exits 0). -/
theorem main_call_exit_cx : Main.callExitCode 2 ≠ 2 := by
  decide

/-- C3 amended: in ecw.py a non-zero child exit status `n` becomes the
invocation's process-level exit code, and a zero status does not abort;
in main.py (the older duplicate) the child's status is ignored and the
invocation always exits 0. -/
theorem call_exit_code_propagation (n : Int) (hn : n ≠ 0) :
    Ecw.callExitCode n = n
    ∧ Ecw.callExitCode 0 = 0
    ∧ Main.callExitCode n = 0 :=
  ⟨by simp [Ecw.callExitCode, hn], by simp [Ecw.callExitCode], rfl⟩

/-- Witness for C3 (amended) at child status 2. -/
theorem call_exit_code_propagation_witness :
    (2 : Int) ≠ 0 ∧ Ecw.callExitCode 2 = 2 ∧ Main.callExitCode 2 = 0 :=
  ⟨by decide,
   (call_exit_code_propagation 2 (by decide)).1,
   (call_exit_code_propagation 2 (by decide)).2.2⟩

/-- C4: for every build mode `m`, the configure command contains exactly
one build-type token (when the passthrough parameters contain none of
their own), and its value follows the fixed mapping of
`BuildMode.to_param`. -/
theorem config_mode_token_mapping (m : BuildMode) (params src bld : List String)
    (exp : Bool) (hp : params.countP buildTypeToken = 0) :
    (Ecw.configCommand params src bld (some m) exp).filter buildTypeToken
        = ["-DCMAKE_BUILD_TYPE=" ++ m.to_param]
    ∧ BuildMode.debug.to_param = "Debug"
    ∧ BuildMode.release.to_param = "Release"
    ∧ BuildMode.release_with_debug.to_param = "RelWithDebInfo"
    ∧ BuildMode.min_size_release.to_param = "MinSizeRel" :=
  ⟨filter_buildTypeToken_configCommand params src bld (some m) exp hp,
   rfl, rfl, rfl, rfl⟩

/-- Witness for C4 at mode `release` with empty passthrough parameters. -/
theorem config_mode_token_mapping_witness :
    ([] : List String).countP buildTypeToken = 0
    ∧ (Ecw.configCommand [] ["repo"] ["repo", "build"] (some BuildMode.release)
          false).filter buildTypeToken
        = ["-DCMAKE_BUILD_TYPE=" ++ BuildMode.release.to_param] :=
  ⟨by decide,
   (config_mode_token_mapping BuildMode.release [] ["repo"] ["repo", "build"]
     false (by decide)).1⟩

/-- C5: for every source/build pair where the build path is not a proper
ancestor of the source path and the build path exists as a directory,
`config` with the reset flag set removes the build directory recursively
and only then spawns the child process. -/
theorem config_reset_removes_build_dir (params src bld : List String)
    (mode : Option BuildMode) (exp quiet : Bool) (isDir : List String → Bool)
    (h1 : pathInParents bld src = false) (h2 : isDir bld = true) :
    Ecw.config params src bld mode exp quiet true isDir
      = [Event.rmtree bld,
         Event.spawn (Ecw.configCommand params src bld mode exp) quiet] := by
  simp [Ecw.config, h1, h2]

/-- Witness for C5 at `src = /repo`, `bld = /repo/build`, existing. -/
theorem config_reset_removes_build_dir_witness :
    pathInParents ["repo", "build"] ["repo"] = false
    ∧ (fun _ : List String => true) ["repo", "build"] = true
    ∧ Ecw.config [] ["repo"] ["repo", "build"] none false false true (fun _ => true)
        = [Event.rmtree ["repo", "build"],
           Event.spawn (Ecw.configCommand [] ["repo"] ["repo", "build"] none false)
             false] :=
  ⟨by decide, rfl,
   config_reset_removes_build_dir [] ["repo"] ["repo", "build"] none false false
     (fun _ => true) (by decide) rfl⟩

/-- C6: the build command for the sentinel target `all` has no
target-selection token, and for every other target `x` it is exactly the
build verb, the build path, then the single pair `-t x`; this holds in
both ecw.py and main.py. -/
theorem build_target_token (bld : List String) (x : String) (hx : x ≠ "all") :
    Ecw.buildCommand "all" bld = ["cmake", "--build", pathStr bld]
    ∧ Ecw.buildCommand x bld = ["cmake", "--build", pathStr bld, "-t", x]
    ∧ Main.buildCommand "all" bld = ["cmake", "--build", pathStr bld]
    ∧ Main.buildCommand x bld = ["cmake", "--build", pathStr bld, "-t", x] := by
  refine ⟨?_, ?_, ?_, ?_⟩ <;> simp [Ecw.buildCommand, Main.buildCommand, hx]

/-- Witness for C6 at target `mytarget`, build dir `/repo/build`
(spec end-to-end example 3). -/
theorem build_target_token_witness :
    ("mytarget" : String) ≠ "all"
    ∧ Ecw.buildCommand "mytarget" ["repo", "build"]
        = ["cmake", "--build", "/repo/build", "-t", "mytarget"] :=
  ⟨by decide, (build_target_token ["repo", "build"] "mytarget" (by decide)).2.1⟩

/-- C7: every configure command is ordered as the configure verb with the
resolved source and build paths, then the build-type token if a mode was
given, then the export-compile-commands token if requested, then the
passthrough parameters verbatim and in order, after all synthesized
tokens. -/
theorem config_command_order (params src bld : List String)
    (mode : Option BuildMode) (exp : Bool) :
    Ecw.configCommand params src bld mode exp =
      ["cmake", "-S", pathStr src, "-B", pathStr bld]
        ++ (match mode with
            | some m => ["-DCMAKE_BUILD_TYPE=" ++ m.to_param]
            | none => [])
        ++ (if exp then ["-DCMAKE_EXPORT_COMPILE_COMMANDS=1"] else [])
        ++ params :=
  configCommand_eq params src bld mode exp

/-- C8 counterexample: in the unsafe-reset scenario
(`src = /repo/src`, `bld = /repo`) the invocation's process-level exit
code is 0, not non-zero — the handler returns without setting a failure
code. -/
theorem config_unsafe_reset_exit_cx :
    pathInParents ["repo"] ["repo", "src"] = true
    ∧ Ecw.configExitCode ["repo", "src"] ["repo"] true 0 = 0 := by
  constructor <;> decide

/-- C8 amended: when the reset-safety check fails the invocation prints
the error and executes no command, but its process-level exit code is 0
(the early return sets no failure code), not non-zero. -/
theorem config_unsafe_reset_exit_code (src bld : List String) (r : Int)
    (h : pathInParents bld src = true) :
    Ecw.configExitCode src bld true r = 0 := by
  simp [Ecw.configExitCode, h]

/-- Witness for C8 (amended) at `src = /repo/src`, `bld = /repo`,
child status 7 (irrelevant: no child runs). -/
theorem config_unsafe_reset_exit_code_witness :
    pathInParents ["repo"] ["repo", "src"] = true
    ∧ Ecw.configExitCode ["repo", "src"] ["repo"] true 7 = 0 :=
  ⟨by decide, config_unsafe_reset_exit_code ["repo", "src"] ["repo"] 7 (by decide)⟩

/-- C9: with the quiet flag the child's stdout is redirected to the
discard sink and stderr is never suppressed; without it neither stream
is redirected; and the build operation always invokes the runner with
quiet off (the flag exists only on configure). -/
theorem quiet_flag_streams (q : Bool) (target : String) (bld : List String) :
    (Ecw.callStreams true).stdoutToDevNull = true
    ∧ (Ecw.callStreams q).stderrToDevNull = false
    ∧ Ecw.callStreams false = { stdoutToDevNull := false, stderrToDevNull := false }
    ∧ Ecw.build target bld = [Event.spawn (Ecw.buildCommand target bld) false] :=
  ⟨rfl, rfl, rfl, rfl⟩

/-- C10: when the build path equals the source path, the ancestry guard
(which tests only proper ancestors) does not trigger, so `config` with
reset removes the directory — the source root itself — and then spawns
the child. -/
theorem config_reset_equal_paths_removes_source (params src : List String)
    (mode : Option BuildMode) (exp quiet : Bool) (isDir : List String → Bool)
    (h : isDir src = true) :
    Ecw.config params src src mode exp quiet true isDir
      = [Event.rmtree src,
         Event.spawn (Ecw.configCommand params src src mode exp) quiet] := by
  simp [Ecw.config, pathInParents_self, h]

/-- Witness for C10 at `src = bld = /repo`, existing. -/
theorem config_reset_equal_paths_removes_source_witness :
    (fun _ : List String => true) ["repo"] = true
    ∧ Ecw.config [] ["repo"] ["repo"] none false false true (fun _ => true)
        = [Event.rmtree ["repo"],
           Event.spawn (Ecw.configCommand [] ["repo"] ["repo"] none false) false] :=
  ⟨rfl,
   config_reset_equal_paths_removes_source [] ["repo"] none false false
     (fun _ => true) rfl⟩
